import Mathlib

/-!
# Verification of the SÚKL ingestion-and-enrichment pipeline

Shallow embedding of the pipeline implemented in `step2_sukl_api.py`,
`step3_pdf_extraction.py`, `step3b_openai_api.py` and `step4b_vector_search.py`:
the document fetcher with retry/backoff, the idempotent relational stores
(tables `leciva`, `dokumenty`, `extracted_info`, `medicine_vectors`), the
ingestion driver, the fact extractor, the backlog queries and the vector
search. External collaborators (HTTP transport, `json.loads`, the embedding
model, the pgvector `<=>` operator) are modelled as explicit parameters;
everything else is translated from the source.
-/

namespace Sukl

/-! ## Keyed stores

Relational tables with a primary / unique key are modelled as association
lists keyed by that key. `INSERT ... ON CONFLICT (key) DO UPDATE SET ...` is
`upsertAssoc`: the update function receives the existing row (`some old`) or
`none`, mirroring that columns absent from the `DO UPDATE SET` list (such as
`created_at`) keep their old value. -/

variable {κ ρ : Type} [DecidableEq κ]

/-- Insert-or-replace at key `k`: the first row with key `k` is replaced by
`f (some old)`; if no row has key `k`, `(k, f none)` is appended. -/
def upsertAssoc (k : κ) (f : Option ρ → ρ) : List (κ × ρ) → List (κ × ρ)
  | [] => [(k, f none)]
  | (k₁, r) :: rest =>
      if k₁ = k then (k, f (some r)) :: rest
      else (k₁, r) :: upsertAssoc k f rest

theorem upsertAssoc_idem (k : κ) (f g : Option ρ → ρ)
    (h : ∀ x : Option ρ, g (some (f x)) = f x) :
    ∀ l : List (κ × ρ), upsertAssoc k g (upsertAssoc k f l) = upsertAssoc k f l
  | [] => by simp [upsertAssoc, h none]
  | (k₁, r) :: rest => by
      by_cases hk : k₁ = k
      · simp [upsertAssoc, hk, h (some r)]
      · simp [upsertAssoc, hk, upsertAssoc_idem k f g h rest]

theorem upsertAssoc_keys (k : κ) (f : Option ρ → ρ) :
    ∀ l : List (κ × ρ), (upsertAssoc k f l).map Prod.fst =
      if k ∈ l.map Prod.fst then l.map Prod.fst else l.map Prod.fst ++ [k]
  | [] => by simp [upsertAssoc]
  | (k₁, r) :: rest => by
      by_cases hk : k₁ = k
      · simp [upsertAssoc, hk]
      · have hne : k ≠ k₁ := fun h => hk h.symm
        by_cases hm : k ∈ rest.map Prod.fst
        · simp [upsertAssoc, hk, hne, hm, upsertAssoc_keys k f rest]
        · simp [upsertAssoc, hk, hne, hm, upsertAssoc_keys k f rest]

theorem upsertAssoc_lookup_ne (k k₀ : κ) (f : Option ρ → ρ) (hne : k₀ ≠ k) :
    ∀ l : List (κ × ρ), (upsertAssoc k f l).lookup k₀ = l.lookup k₀
  | [] => by
      have hb : (k₀ == k) = false := beq_eq_false_iff_ne.mpr hne
      simp [upsertAssoc, List.lookup, hb]
  | (k₁, r) :: rest => by
      by_cases hk : k₁ = k
      · subst hk
        have hb : (k₀ == k₁) = false := beq_eq_false_iff_ne.mpr hne
        simp [upsertAssoc, List.lookup, hb]
      · by_cases hk₀ : k₀ = k₁
        · subst hk₀
          simp [upsertAssoc, hk, List.lookup]
        · have hb : (k₀ == k₁) = false := beq_eq_false_iff_ne.mpr hk₀
          simp [upsertAssoc, hk, List.lookup, hb,
            upsertAssoc_lookup_ne k k₀ f hne rest]

theorem upsertAssoc_lookup_eq (k : κ) (f : Option ρ → ρ) :
    ∀ l : List (κ × ρ), (upsertAssoc k f l).lookup k = some (f (l.lookup k))
  | [] => by simp [upsertAssoc, List.lookup]
  | (k₁, r) :: rest => by
      by_cases hk : k₁ = k
      · subst hk
        simp [upsertAssoc, List.lookup]
      · have hb : (k == k₁) = false :=
          beq_eq_false_iff_ne.mpr fun h => hk h.symm
        simp [upsertAssoc, hk, List.lookup, hb, upsertAssoc_lookup_eq k f rest]

/-! ## Data model

`leciva` rows (`step2_sukl_api.py:150-177`): the 23 attribute columns written
by `save_medicine`, plus `created_at` (set by the store on first insert, never
touched by the conflict update). The `save_medicine` input dict is modelled by
`MedicineDetail`, holding `str(medicine_data.get(field, ''))` for each field
the code reads. -/

structure MedicineDetail where
  kodSUKL : String
  nazev : String
  sila : String
  lekovaFormaKod : String
  baleni : String
  cestaKod : String
  doplnek : String
  obalKod : String
  drzitelKod : String
  zemeDrziteleKod : String
  stavRegistraceKod : String
  ATCkod : String
  registracniCislo : String
  dddMnozstvi : String
  dddMnozstviJednotka : String
  dddBaleni : String
  zpusobVydejeKod : String
  expirace : String
  expiraceJednotka : String
  registrovanyNazevLP : String
  ochrannePrvky : String
  jazykObalu : String
  datumRegistrace : String
  deriving Repr, DecidableEq

/-- A `MedicineDetail` with every field the empty string (a dict with all
fields absent, after the `.get(..., '')` defaults). -/
def emptyDetail : MedicineDetail :=
  ⟨"", "", "", "", "", "", "", "", "", "", "", "",
   "", "", "", "", "", "", "", "", "", "", ""⟩

structure LecivaRow where
  data : MedicineDetail
  created_at : Nat
  deriving Repr, DecidableEq

/-- `dokumenty` rows (`step2_sukl_api.py:180-192`), keyed by the unique pair
`(kod_sukl, dokument_id)`. PDF bytes are lists of naturals. -/
structure DokumentRow where
  typ : String
  nazev : String
  pdf_data : List Nat
  pdf_size : Nat
  created_at : Nat
  deriving Repr, DecidableEq

/-- The `document_data` dict passed to `save_document`
(`step2_sukl_api.py:290-292` reads keys `id`, `typ`, `nazev`). -/
structure DocMeta where
  id : String
  typ : String
  nazev : String
  deriving Repr, DecidableEq

/-- `extracted_info` rows (`step3b_openai_api.py:118-127`), keyed by the
unique `kod_sukl`. -/
structure ExtractedRow where
  indikace : List String
  davkovani : List String
  extracted_text : String
  created_at : Nat
  deriving Repr, DecidableEq

/-- `medicine_vectors` rows (`step4b_vector_search.py:49-58`), keyed by the
unique `kod_sukl`. Vector components are rationals. -/
structure VectorRow where
  indikace_vector : List ℚ
  davkovani_vector : List ℚ
  combined_vector : List ℚ
  created_at : Nat
  deriving Repr, DecidableEq

/-- The whole relational state shared by the pipeline stages. -/
structure DB where
  leciva : List (String × LecivaRow)
  dokumenty : List ((String × String) × DokumentRow)
  extracted_info : List (String × ExtractedRow)
  medicine_vectors : List (String × VectorRow)
  deriving Repr, DecidableEq

def DB.empty : DB := ⟨[], [], [], []⟩

/-! ## Document Fetcher (`SUKLAPIClient.download_document`,
`step2_sukl_api.py:84-121`)

The HTTP transport is a parameter `resp : Nat → AttemptResult` giving the
outcome of the request made on each (0-based) attempt. The function's
observable behaviour is its returned value or raised error, the number of
request attempts made, and the sequence of `time.sleep` durations. -/

/-- Outcome of one `session.get` + `raise_for_status`. `httpError s` is a
`requests.exceptions.HTTPError` with status code `s`; `otherError` is any
other exception (timeout, connection error, ...). -/
inductive AttemptResult
  | success (body : List Nat)
  | httpError (status : Nat)
  | otherError
  deriving Repr, DecidableEq

/-- Either the function returns bytes or it raises an `HTTPError` with the
given status (`raise` at `step2_sukl_api.py:111`). -/
inductive FetchOutcome
  | ok (body : List Nat)
  | raised (status : Nat)
  deriving Repr, DecidableEq

structure FetchTrace where
  result : FetchOutcome
  attempts : Nat
  sleeps : List Nat
  deriving Repr, DecidableEq

/-- The retry loop (`for attempt in range(max_retries)` at
`step2_sukl_api.py:93-119`). `attempt` is the current 0-based attempt index and
`remaining` the number of iterations still available; the Python guard
`attempt < max_retries - 1` is exactly `remaining > 1`. On fallthrough
(`remaining = 0`) the function returns `b""` (`step2_sukl_api.py:121`). -/
def downloadGo (resp : Nat → AttemptResult) : Nat → Nat → FetchTrace
  | _, 0 => ⟨.ok [], 0, []⟩
  | attempt, remaining + 1 =>
      match resp attempt with
      | .success body => ⟨.ok body, 1, []⟩
      | .httpError status =>
          if status = 429 then
            -- wait_time = (2 ** attempt) * 5
            if remaining = 0 then ⟨.ok [], 1, []⟩
            else
              let t := downloadGo resp (attempt + 1) remaining
              ⟨t.result, t.attempts + 1, 2 ^ attempt * 5 :: t.sleeps⟩
          else ⟨.raised status, 1, []⟩
      | .otherError =>
          if remaining = 0 then ⟨.ok [], 1, []⟩
          else
            let t := downloadGo resp (attempt + 1) remaining
            ⟨t.result, t.attempts + 1, 2 :: t.sleeps⟩

/-- `download_document(kod_sukl, doc_type, is_eu_registration, max_retries=3)`:
an extra fixed 3-second sleep before the first attempt when
`is_eu_registration` (`step2_sukl_api.py:89-91`), then the retry loop. -/
def download_document (resp : Nat → AttemptResult) (is_eu_registration : Bool)
    (max_retries : Nat := 3) : FetchTrace :=
  let t := downloadGo resp 0 max_retries
  if is_eu_registration then { t with sleeps := 3 :: t.sleeps } else t

/-! ## Catalog / Enrichment Store operations

`DatabaseManager` in `step2_sukl_api.py` and `step3b_openai_api.py`. Each
operation takes the wall-clock instant `now` (the value `CURRENT_TIMESTAMP`
would take on a fresh insert). Connection failures are outside the model:
operations fail only where the store itself rejects them (foreign keys). -/

/-- `DatabaseManager.init_database` (`step2_sukl_api.py:137-199`): drops the
existing `dokumenty` and `leciva` tables (`DROP TABLE IF EXISTS ... CASCADE`,
lines 144-145) and recreates them empty. The extraction-stage tables belong
to other scripts and are untouched. -/
def init_database (db : DB) : DB :=
  { db with leciva := [], dokumenty := [] }

/-- `DatabaseManager.save_medicine` (`step2_sukl_api.py:201-271`):
`INSERT INTO leciva ... ON CONFLICT (kod_sukl) DO UPDATE SET` every attribute
column; `created_at` is not in the update list, so an existing row keeps it. -/
def save_medicine (now : Nat) (medicine_data : MedicineDetail) (db : DB) :
    Bool × DB :=
  (true,
    { db with
        leciva := upsertAssoc medicine_data.kodSUKL
          (fun old =>
            ⟨medicine_data,
             match old with
             | some o => o.created_at
             | none => now⟩)
          db.leciva })

/-- `DatabaseManager.save_document` (`step2_sukl_api.py:273-302`):
`INSERT INTO dokumenty ... ON CONFLICT (kod_sukl, dokument_id) DO UPDATE SET
typ, nazev, pdf_data, pdf_size`; the row key is
`(kod_sukl, str(document_data.get('id', '')))` and `pdf_size` is written as
`len(pdf_content)` together with the payload. The `kod_sukl` foreign key into
`leciva` makes the insert fail (return `False`, store unchanged) when the
product row is absent. -/
def save_document (now : Nat) (kod_sukl : String) (document_data : DocMeta)
    (pdf_content : List Nat) (db : DB) : Bool × DB :=
  if kod_sukl ∈ db.leciva.map Prod.fst then
    (true,
      { db with
          dokumenty := upsertAssoc (kod_sukl, document_data.id)
            (fun old =>
              ⟨document_data.typ, document_data.nazev,
               pdf_content, pdf_content.length,
               match old with
               | some o => o.created_at
               | none => now⟩)
            db.dokumenty })
  else (false, db)

/-- `DatabaseManager.save_extracted_info` (`step3b_openai_api.py:151-178`):
`INSERT INTO extracted_info ... ON CONFLICT (kod_sukl) DO UPDATE SET
indikace, davkovani, extracted_text`, with `extracted_text[:1000]` truncation;
foreign key on `kod_sukl` as above. -/
def save_extracted_info (now : Nat) (kod_sukl : String)
    (indikace davkovani : List String) (extracted_text : String) (db : DB) :
    Bool × DB :=
  if kod_sukl ∈ db.leciva.map Prod.fst then
    (true,
      { db with
          extracted_info := upsertAssoc kod_sukl
            (fun old =>
              ⟨indikace, davkovani, extracted_text.take 1000,
               match old with
               | some o => o.created_at
               | none => now⟩)
            db.extracted_info })
  else (false, db)

/-! ## Ingestion driver (`main` of `step2_sukl_api.py:304-413`)

The per-code environment carries what the external services answer for this
code: the metadata fetch result (`none` models the empty dict returned on any
failure, which is falsy) and the outcome of `download_document`. -/

/-- Python `s.startswith(pre)`, as a test on the character sequence. -/
def strStartsWith (s pre : String) : Bool :=
  pre.data.isPrefixOf s.data

/-- Python `s.strip()`: remove leading and trailing whitespace. -/
def pyStrip (s : String) : String :=
  ⟨((s.data.dropWhile Char.isWhitespace).reverse.dropWhile
      Char.isWhitespace).reverse⟩

structure CodeEnv where
  detail : Option MedicineDetail
  download : FetchOutcome
  deriving Repr, DecidableEq

inductive Action
  | getDetail
  | downloadDoc
  | saveMed
  | saveDoc
  deriving Repr, DecidableEq

inductive CodeOutcome
  | failedDetail
  | skippedEU
  | failedError
  | skippedEmpty
  | failedSaveMed
  | failedSaveDoc
  | stored
  deriving Repr, DecidableEq

/-- One iteration of the driver loop body (`step2_sukl_api.py:348-400`) for
code `kod_sukl`, with `skip_eu` the `SKIP_EU_REGISTRATIONS` policy flag.
Returns the terminal state for this code, the trace of external actions
taken, and the updated store. A `FetchOutcome.raised` download lands in the
outer `except` handler (line 398) which logs and continues. -/
def processCode (skip_eu : Bool) (kod_sukl : String) (env : CodeEnv)
    (now : Nat) (db : DB) : CodeOutcome × List Action × DB :=
  match env.detail with
  | none => (.failedDetail, [.getDetail], db)
  | some medicine_detail =>
      let is_eu_registration := strStartsWith medicine_detail.registracniCislo "EU"
      if is_eu_registration && skip_eu then
        (.skippedEU, [.getDetail], db)
      else
        match env.download with
        | .raised _ => (.failedError, [.getDetail, .downloadDoc], db)
        | .ok pdf_content =>
            if pdf_content = [] then
              (.skippedEmpty, [.getDetail, .downloadDoc], db)
            else
              let s₁ := save_medicine now medicine_detail db
              if s₁.1 = false then
                (.failedSaveMed, [.getDetail, .downloadDoc, .saveMed], db)
              else
                let doc_data : DocMeta :=
                  ⟨kod_sukl, "spc", "SPC_" ++ kod_sukl ++ ".pdf"⟩
                let s₂ := save_document now kod_sukl doc_data pdf_content s₁.2
                if s₂.1 then
                  (.stored, [.getDetail, .downloadDoc, .saveMed, .saveDoc], s₂.2)
                else
                  (.failedSaveDoc, [.getDetail, .downloadDoc, .saveMed, .saveDoc],
                   s₂.2)

/-- The driver loop (`step2_sukl_api.py:335-400`): processes codes in catalog
order, breaking once `success_count` reaches the target or `processed_count`
exceeds the attempt ceiling; both counters are checked after incrementing
`processed_count` at the top of the iteration. -/
def runLoop (skip_eu : Bool) (target max_attempts : Nat) :
    List (String × CodeEnv) → Nat → Nat → Nat → DB →
    List (CodeOutcome × List Action) × DB
  | [], _, _, _, db => ([], db)
  | (kod_sukl, env) :: rest, success_count, processed_count, now, db =>
      let processed := processed_count + 1
      if target ≤ success_count then ([], db)
      else if max_attempts < processed then ([], db)
      else
        let step := processCode skip_eu kod_sukl env now db
        let success := if step.1 = .stored then success_count + 1 else success_count
        let tail := runLoop skip_eu target max_attempts rest success processed
          (now + 1) step.2.2
        ((step.1, step.2.1) :: tail.1, tail.2)

/-! ## Fact Extractor (`PDFExtractor.extract_medicine_info`,
`step3b_openai_api.py:46-92`)

The completion service and `json.loads` are external collaborators, passed in
as parameters: `service` maps the prompt to either an exception (`.error`),
or a response whose message content is `none` (Python `None`) or a string;
`parse` is `json.loads` restricted to the JSON values we distinguish. -/

inductive JsonVal
  | str (s : String)
  | arr (elems : List JsonVal)
  | obj (fields : List (String × JsonVal))
  | other

/-- Python `dict.get(key)` on a parsed JSON object (`none` when the value is
not an object or the key is absent). -/
def dictGet (j : JsonVal) (key : String) : Option JsonVal :=
  match j with
  | .obj fields => fields.lookup key
  | _ => none

/-- The prompt f-string (`step3b_openai_api.py:50-60`), with the document
text truncated to its first 2000 characters (`text[:2000]`). -/
def buildPrompt (text kod_sukl : String) : String :=
  "Analyzuj nasledujici text z SPC pro lek s kodem SUKL: " ++ kod_sukl ++
  " Extrahuj nasledujici informace a vrat je v JSON formatu: " ++
  "\x7b \x22indikace\x22: [\x22\x22], \x22davkovani\x22: [\x22\x22], \x7d" ++
  " Text: " ++ text.take 2000

/-- `extract_medicine_info(text, kod_sukl)`: builds the prompt, calls the
service, and parses the reply. Any service exception, a `None` content, or a
`json.JSONDecodeError` (`parse` returning `none`) yields the empty dict
`\x7b\x7d` (here `.obj []`); otherwise the parsed value is returned as-is. -/
def extract_medicine_info (service : String → Except Unit (Option String))
    (parse : String → Option JsonVal) (text kod_sukl : String) : JsonVal :=
  match service (buildPrompt text kod_sukl) with
  | .error _ => .obj []
  | .ok none => .obj []
  | .ok (some content) =>
      match parse content with
      | none => .obj []
      | some result => result

/-! ## Backlog queries (`main` of `step3b_openai_api.py:199-212` and of
`step3_pdf_extraction.py:265-279`)

`SELECT DISTINCT l.kod_sukl, l.nazev, d.pdf_data FROM leciva l JOIN dokumenty
d ON l.kod_sukl = d.kod_sukl WHERE d.typ = 'spc' AND l.kod_sukl NOT IN
(SELECT kod_sukl FROM extracted_info)`; the `step3_pdf_extraction` variant
appends `LIMIT 2`. -/

def extractedCodes (db : DB) : List String :=
  db.extracted_info.map Prod.fst

/-- The backlog query of `step3b_openai_api.py` (no LIMIT). -/
def selectUnprocessed (db : DB) : List (String × String × List Nat) :=
  (db.leciva.flatMap fun l =>
    db.dokumenty.filterMap fun d =>
      if d.1.1 = l.1 ∧ d.2.typ = "spc" ∧ l.1 ∉ extractedCodes db then
        some (l.1, l.2.data.nazev, d.2.pdf_data)
      else none).dedup

/-- The backlog query of `step3_pdf_extraction.py`, which adds `LIMIT 2`. -/
def selectUnprocessedLimit2 (db : DB) : List (String × String × List Nat) :=
  (selectUnprocessed db).take 2

/-! ## Embedding Indexer and vector search (`step4b_vector_search.py`)

The sentence-transformer `model.encode` is an external collaborator: each call
either returns a vector or throws. `create_embeddings` wraps one call. -/

/-- `VectorSearchManager.create_embeddings` (`step4b_vector_search.py:77-85`):
returns the model's vector, or — when the call throws — the fallback
`np.zeros(384)`. -/
def create_embeddings (model_resp : Except Unit (List ℚ)) : List ℚ :=
  match model_resp with
  | .ok embedding => embedding
  | .error _ => List.replicate 384 0

/-- The three `model.encode` outcomes consumed by one
`update_vectors_for_medicine` call (indication text, dosage text, combined
text, in call order). -/
structure EmbedEnv where
  indikaceResp : Except Unit (List ℚ)
  davkovaniResp : Except Unit (List ℚ)
  combinedResp : Except Unit (List ℚ)

/-- `" ".join(fragments)`. -/
def joinSpace (fragments : List String) : String :=
  String.intercalate " " fragments

/-- `VectorSearchManager.update_vectors_for_medicine`
(`step4b_vector_search.py:87-129`): builds the three texts, returns `False`
without touching the store when the combined text is empty after stripping,
otherwise embeds all three texts (with the zero-vector fallback inside
`create_embeddings`) and upserts the `medicine_vectors` row; the foreign key
on `kod_sukl` rejects the write when the product row is absent. -/
def update_vectors_for_medicine (env : EmbedEnv) (now : Nat) (kod_sukl : String)
    (indikace davkovani : List String) (db : DB) : Bool × DB :=
  let indikace_text := joinSpace indikace
  let davkovani_text := joinSpace davkovani
  let combined_text := pyStrip (indikace_text ++ " " ++ davkovani_text)
  if combined_text = "" then (false, db)
  else if kod_sukl ∈ db.leciva.map Prod.fst then
    let indikace_vector := create_embeddings env.indikaceResp
    let davkovani_vector := create_embeddings env.davkovaniResp
    let combined_vector := create_embeddings env.combinedResp
    (true,
      { db with
          medicine_vectors := upsertAssoc kod_sukl
            (fun old =>
              ⟨indikace_vector, davkovani_vector, combined_vector,
               match old with
               | some o => o.created_at
               | none => now⟩)
            db.medicine_vectors })
  else (false, db)

/-- `VectorSearchManager.batch_update_vectors`
(`step4b_vector_search.py:211-243`): runs `update_vectors_for_medicine` for
each backlog entry in turn, counting successes; no per-item outcome can stop
the loop. -/
def batch_update_vectors :
    List (String × List String × List String × EmbedEnv) → Nat → DB → Nat × DB
  | [], _, db => (0, db)
  | (kod_sukl, indikace, davkovani, env) :: rest, now, db =>
      let step := update_vectors_for_medicine env now kod_sukl indikace davkovani db
      let tail := batch_update_vectors rest (now + 1) step.2
      (tail.1 + (if step.1 then 1 else 0), tail.2)

/-! ### Semantic search (`search_similar_medicines`,
`step4b_vector_search.py:131-169`)

The pgvector cosine-distance operator `<=>` belongs to the storage engine and
is a parameter `dist`. The SQL joins `leciva`, `extracted_info` and
`medicine_vectors` on `kod_sukl`, orders by `combined_vector <=> query`
ascending, truncates to `limit`, and reports
`similarity = round(1 - distance, 3)`. -/

structure SearchRow where
  kod_sukl : String
  nazev : String
  indikace : List String
  davkovani : List String
  combined_vector : List ℚ
  deriving Repr, DecidableEq

structure SearchResult where
  kod_sukl : String
  nazev : String
  indikace : List String
  davkovani : List String
  similarity : ℚ
  deriving Repr, DecidableEq

/-- The three-way equi-join on `kod_sukl` in the search query. -/
def joinedRows (db : DB) : List SearchRow :=
  db.leciva.flatMap fun l =>
    db.extracted_info.flatMap fun e =>
      db.medicine_vectors.filterMap fun v =>
        if e.1 = l.1 ∧ v.1 = l.1 then
          some ⟨l.1, l.2.data.nazev, e.2.indikace, e.2.davkovani,
                v.2.combined_vector⟩
        else none

/-- Python's `round(x, 3)`: rounding to 3 decimal places (exact-half ties,
which IEEE floats realise only at representability boundaries, are broken
upward here). -/
def round3 (q : ℚ) : ℚ := (round (q * 1000) : ℤ) / 1000

/-- `ORDER BY mv.combined_vector <=> %s`: results sorted by ascending
distance to the query vector. -/
def distLE (dist : List ℚ → List ℚ → ℚ) (query_vector : List ℚ)
    (a b : SearchRow) : Prop :=
  dist query_vector a.combined_vector ≤ dist query_vector b.combined_vector

instance (dist : List ℚ → List ℚ → ℚ) (q : List ℚ) :
    DecidableRel (distLE dist q) :=
  fun _ _ => inferInstanceAs (Decidable (_ ≤ _))

instance (dist : List ℚ → List ℚ → ℚ) (q : List ℚ) :
    IsTotal SearchRow (distLE dist q) :=
  ⟨fun _ _ => le_total _ _⟩

instance (dist : List ℚ → List ℚ → ℚ) (q : List ℚ) :
    IsTrans SearchRow (distLE dist q) :=
  ⟨fun _ _ _ hab hbc => le_trans hab hbc⟩

/-- `VectorSearchManager.search_similar_medicines(query, limit)`: with
`query_vector` the embedding of the query text, rank the joined rows by
ascending `dist`, keep `limit` of them, and report each with
`similarity = round(1 - dist, 3)` (`step4b_vector_search.py:141-165`). -/
def search_similar_medicines (dist : List ℚ → List ℚ → ℚ) (db : DB)
    (query_vector : List ℚ) (limit : Nat) : List SearchResult :=
  (((joinedRows db).insertionSort (distLE dist query_vector)).take limit).map
    fun r =>
      ⟨r.kod_sukl, r.nazev, r.indikace, r.davkovani,
       round3 (1 - dist query_vector r.combined_vector)⟩

/-! ## Verified properties -/

theorem downloadGo_always429 (resp : Nat → AttemptResult)
    (h : ∀ i, resp i = AttemptResult.httpError 429) :
    ∀ remaining attempt, downloadGo resp attempt remaining =
      ⟨.ok [], remaining,
       (List.range (remaining - 1)).map fun i => 2 ^ (attempt + i) * 5⟩
  | 0, attempt => by simp [downloadGo]
  | 1, attempt => by simp [downloadGo, h attempt]
  | remaining + 2, attempt => by
      have ih := downloadGo_always429 resp h (remaining + 1) (attempt + 1)
      have harith : ∀ i : Nat, attempt + 1 + i = attempt + (i + 1) :=
        fun i => by omega
      rw [downloadGo, h attempt]
      simp [ih, List.range_succ_eq_map, List.map_map, Function.comp, harith]

/-- C1: against a source that answers HTTP 429 on every attempt,
`download_document` makes exactly `max_retries` request attempts, sleeps
`5 * 2 ^ attempt` seconds between consecutive attempts (5, then 10, ...),
returns empty bytes without raising, and for `max_retries = 3` the total
backoff slept is `5 + 10 = 15` seconds, hence at least 15. -/
theorem download_429_retry_bound (resp : Nat → AttemptResult)
    (max_retries : Nat) (h : ∀ i, resp i = AttemptResult.httpError 429) :
    (download_document resp false max_retries).attempts = max_retries ∧
    (download_document resp false max_retries).result = .ok [] ∧
    (download_document resp false max_retries).sleeps =
      (List.range (max_retries - 1)).map (fun attempt => 2 ^ attempt * 5) ∧
    (max_retries = 3 →
      (download_document resp false max_retries).sleeps = [5, 10] ∧
      5 + 10 ≤ (download_document resp false max_retries).sleeps.sum) := by
  have hgo := downloadGo_always429 resp h max_retries 0
  have hd : download_document resp false max_retries =
      ⟨.ok [], max_retries,
       (List.range (max_retries - 1)).map fun i => 2 ^ (0 + i) * 5⟩ := by
    simp [download_document, hgo]
  rw [hd]
  refine ⟨rfl, rfl, by simp, fun h3 => ?_⟩
  subst h3
  exact ⟨by decide, by decide⟩

theorem download_429_retry_bound_witness :
    (download_document (fun _ => AttemptResult.httpError 429) false 3).attempts = 3 ∧
    (download_document (fun _ => AttemptResult.httpError 429) false 3).result = .ok [] ∧
    (download_document (fun _ => AttemptResult.httpError 429) false 3).sleeps =
      (List.range (3 - 1)).map (fun attempt => 2 ^ attempt * 5) ∧
    (3 = 3 →
      (download_document (fun _ => AttemptResult.httpError 429) false 3).sleeps = [5, 10] ∧
      5 + 10 ≤ (download_document (fun _ => AttemptResult.httpError 429) false 3).sleeps.sum) :=
  download_429_retry_bound (fun _ => AttemptResult.httpError 429) 3 (fun _ => rfl)

/-- The retry loop when the attempt at (relative) index `k` fails with a
non-429 HTTP error and every earlier attempt failed retryably (429 or some
other transient exception): the `raise` at `step2_sukl_api.py:111` escapes
the loop with exactly `k + 1` attempts made, and the sleeps are exactly the
ones owed to the earlier retryable failures. -/
theorem downloadGo_raises (resp : Nat → AttemptResult) (status : Nat)
    (hne : status ≠ 429) :
    ∀ k attempt remaining, k < remaining →
      (∀ i, i < k → resp (attempt + i) = AttemptResult.httpError 429 ∨
        resp (attempt + i) = AttemptResult.otherError) →
      resp (attempt + k) = AttemptResult.httpError status →
      downloadGo resp attempt remaining =
        ⟨.raised status, k + 1,
         (List.range k).map fun i =>
           if resp (attempt + i) = AttemptResult.httpError 429 then
             2 ^ (attempt + i) * 5
           else 2⟩
  | 0, attempt, remaining, hlt, _, hfail => by
      obtain ⟨r, rfl⟩ : ∃ r, remaining = r + 1 := ⟨remaining - 1, by omega⟩
      rw [Nat.add_zero] at hfail
      rw [downloadGo, hfail]
      simp [hne]
  | k + 1, attempt, remaining, hlt, hpre, hfail => by
      obtain ⟨r, rfl⟩ : ∃ r, remaining = r + 1 := ⟨remaining - 1, by omega⟩
      have hr0 : r ≠ 0 := by omega
      have ih := downloadGo_raises resp status hne k (attempt + 1) r
        (by omega)
        (fun i hi => by
          have h := hpre (i + 1) (by omega)
          rwa [show attempt + (i + 1) = attempt + 1 + i from by omega] at h)
        (by
          have h := hfail
          rwa [show attempt + (k + 1) = attempt + 1 + k from by omega] at h)
      have harith : ∀ i : Nat, attempt + 1 + i = attempt + (i + 1) :=
        fun i => by omega
      rcases hpre 0 (by omega) with h0 | h0 <;> rw [Nat.add_zero] at h0
      · rw [downloadGo, h0]
        simp [hr0, ih, List.range_succ_eq_map, List.map_map, Function.comp,
          harith, h0]
      · rw [downloadGo, h0]
        simp [hr0, ih, List.range_succ_eq_map, List.map_map, Function.comp,
          harith, h0]

/-- C8: for every call where some attempt — at any index `k`, after any
sequence of retryable failures (429s or other transient errors) on the
earlier attempts — fails with an HTTP error whose status is a 4xx other than
429, `download_document` propagates the error to the caller immediately: the
call raises with exactly `k + 1` attempts made (no further retry attempt),
and the backoff sleeps are exactly the `k` sleeps owed to the earlier
retryable failures — no backoff sleep occurs for this error. -/
theorem download_non429_propagates (resp : Nat → AttemptResult)
    (status k max_retries : Nat) (hk : k < max_retries)
    (hpre : ∀ i, i < k → resp i = AttemptResult.httpError 429 ∨
      resp i = AttemptResult.otherError)
    (hfail : resp k = AttemptResult.httpError status)
    (_h4a : 400 ≤ status) (_h4b : status < 500) (hne : status ≠ 429) :
    (download_document resp false max_retries).result = .raised status ∧
    (download_document resp false max_retries).attempts = k + 1 ∧
    (download_document resp false max_retries).sleeps =
      (List.range k).map
        (fun i => if resp i = AttemptResult.httpError 429 then 2 ^ i * 5
          else 2) ∧
    (download_document resp false max_retries).sleeps.length = k := by
  have hgo := downloadGo_raises resp status hne k 0 max_retries hk
    (fun i hi => by simpa using hpre i hi)
    (by simpa using hfail)
  have hd : download_document resp false max_retries =
      ⟨.raised status, k + 1,
       (List.range k).map fun i =>
         if resp (0 + i) = AttemptResult.httpError 429 then 2 ^ (0 + i) * 5
         else 2⟩ := by
    simp [download_document, hgo]
  rw [hd]
  refine ⟨rfl, rfl, by simp, by simp⟩

theorem download_non429_propagates_witness :
    (download_document
      (fun i => if i = 0 then AttemptResult.httpError 429
        else AttemptResult.httpError 404) false 3).result = .raised 404 ∧
    (download_document
      (fun i => if i = 0 then AttemptResult.httpError 429
        else AttemptResult.httpError 404) false 3).attempts = 2 ∧
    (download_document
      (fun i => if i = 0 then AttemptResult.httpError 429
        else AttemptResult.httpError 404) false 3).sleeps = [5] ∧
    (download_document
      (fun i => if i = 0 then AttemptResult.httpError 429
        else AttemptResult.httpError 404) false 3).sleeps.length = 1 := by
  have h := download_non429_propagates
    (fun i => if i = 0 then AttemptResult.httpError 429
      else AttemptResult.httpError 404) 404 1 3 (by decide)
    (by decide) rfl (by decide) (by decide) (by decide)
  exact ⟨h.1, h.2.1, h.2.2.1.trans (by decide), h.2.2.2⟩

/-- C2: upsert idempotence. Calling `save_medicine`, `save_document` or
`save_extracted_info` twice with identical arguments (at any two wall-clock
instants) leaves the store in the same observable state as calling it once. -/
theorem upsert_idempotent (now₁ now₂ : Nat) (medicine_data : MedicineDetail)
    (kod_sukl : String) (document_data : DocMeta) (pdf_content : List Nat)
    (indikace davkovani : List String) (extracted_text : String) (db : DB) :
    (save_medicine now₂ medicine_data
        (save_medicine now₁ medicine_data db).2).2 =
      (save_medicine now₁ medicine_data db).2 ∧
    (save_document now₂ kod_sukl document_data pdf_content
        (save_document now₁ kod_sukl document_data pdf_content db).2).2 =
      (save_document now₁ kod_sukl document_data pdf_content db).2 ∧
    (save_extracted_info now₂ kod_sukl indikace davkovani extracted_text
        (save_extracted_info now₁ kod_sukl indikace davkovani extracted_text db).2).2 =
      (save_extracted_info now₁ kod_sukl indikace davkovani extracted_text db).2 := by
  refine ⟨?_, ?_, ?_⟩
  · simp only [save_medicine]
    congr 1
    apply upsertAssoc_idem
    intro x
    rfl
  · by_cases hm : kod_sukl ∈ db.leciva.map Prod.fst
    · simp [save_document, hm]
      apply upsertAssoc_idem
      intro x
      rfl
    · simp [save_document, hm]
  · by_cases hm : kod_sukl ∈ db.leciva.map Prod.fst
    · simp [save_extracted_info, hm]
      apply upsertAssoc_idem
      intro x
      rfl
    · simp [save_extracted_info, hm]

/-- C4: for a product code whose fetched registration number starts with
`"EU"`, when `SKIP_EU_REGISTRATIONS` is enabled the driver reaches the
`SkippedEU` terminal state for that code without ever calling
`download_document` (no `downloadDoc` action in the trace) and leaves the
store untouched; the loop then proceeds to the next code. -/
theorem eu_skip_without_fetch (kod_sukl : String) (env : CodeEnv)
    (medicine_detail : MedicineDetail) (now : Nat) (db : DB)
    (rest : List (String × CodeEnv))
    (target max_attempts success_count processed_count : Nat)
    (hd : env.detail = some medicine_detail)
    (heu : strStartsWith medicine_detail.registracniCislo "EU" = true)
    (hs : success_count < target)
    (hp : processed_count + 1 ≤ max_attempts) :
    processCode true kod_sukl env now db = (.skippedEU, [.getDetail], db) ∧
    Action.downloadDoc ∉ (processCode true kod_sukl env now db).2.1 ∧
    runLoop true target max_attempts ((kod_sukl, env) :: rest)
        success_count processed_count now db =
      ((CodeOutcome.skippedEU, [Action.getDetail]) ::
        (runLoop true target max_attempts rest success_count
          (processed_count + 1) (now + 1) db).1,
       (runLoop true target max_attempts rest success_count
          (processed_count + 1) (now + 1) db).2) := by
  have hpc : processCode true kod_sukl env now db =
      (.skippedEU, [.getDetail], db) := by
    simp [processCode, hd, heu]
  refine ⟨hpc, ?_, ?_⟩
  · rw [hpc]
    show Action.downloadDoc ∉ [Action.getDetail]
    decide
  · have h₁ : ¬target ≤ success_count := by omega
    have h₂ : ¬max_attempts < processed_count + 1 := by omega
    simp [runLoop, h₁, h₂, hpc]

theorem eu_skip_without_fetch_witness :
    processCode true "0000001"
        ⟨some { emptyDetail with registracniCislo := "EU/1/23/456" }, .ok []⟩
        0 DB.empty =
      (.skippedEU, [.getDetail], DB.empty) ∧
    Action.downloadDoc ∉
      (processCode true "0000001"
        ⟨some { emptyDetail with registracniCislo := "EU/1/23/456" }, .ok []⟩
        0 DB.empty).2.1 ∧
    runLoop true 10 5000
        [("0000001",
          ⟨some { emptyDetail with registracniCislo := "EU/1/23/456" }, .ok []⟩)]
        0 0 0 DB.empty =
      ((CodeOutcome.skippedEU, [Action.getDetail]) ::
        (runLoop true 10 5000 [] 0 1 1 DB.empty).1,
       (runLoop true 10 5000 [] 0 1 1 DB.empty).2) :=
  eu_skip_without_fetch "0000001"
    ⟨some { emptyDetail with registracniCislo := "EU/1/23/456" }, .ok []⟩
    { emptyDetail with registracniCislo := "EU/1/23/456" } 0 DB.empty
    [] 10 5000 0 0 rfl (by decide) (by decide) (by decide)

/-- C5: when the extraction service replies with empty content (`None`) or
with text that `json.loads` cannot parse — or the API call itself throws —
`extract_medicine_info` returns the empty facts object (every field lookup is
absent, so the downstream `.get(field, [])` defaults make all fields empty);
being a total function, it never propagates a failure to the caller. -/
theorem extract_malformed_soft (service : String → Except Unit (Option String))
    (parse : String → Option JsonVal) (text kod_sukl : String)
    (h : service (buildPrompt text kod_sukl) = .error () ∨
         service (buildPrompt text kod_sukl) = .ok none ∨
         ∃ content, service (buildPrompt text kod_sukl) = .ok (some content) ∧
           parse content = none) :
    extract_medicine_info service parse text kod_sukl = .obj [] ∧
    ∀ key, dictGet (extract_medicine_info service parse text kod_sukl) key
      = none := by
  have he : extract_medicine_info service parse text kod_sukl = .obj [] := by
    rcases h with h | h | ⟨content, hc, hp⟩
    · simp [extract_medicine_info, h]
    · simp [extract_medicine_info, h]
    · simp [extract_medicine_info, hc, hp]
  exact ⟨he, fun key => by simp [he, dictGet, List.lookup]⟩

theorem extract_malformed_soft_witness :
    extract_medicine_info (fun _ => .ok (some "not a json object"))
        (fun _ => none) "some spc text" "0000001" = .obj [] ∧
    ∀ key, dictGet (extract_medicine_info (fun _ => .ok (some "not a json object"))
        (fun _ => none) "some spc text" "0000001") key = none :=
  extract_malformed_soft (fun _ => .ok (some "not a json object"))
    (fun _ => none) "some spc text" "0000001"
    (Or.inr (Or.inr ⟨"not a json object", rfl, rfl⟩))

/-- C7 counterexample: the claim says no pipeline operation — including store
initialization — removes a Product row, but `init_database` drops the
`leciva` table: a store holding product "0000001" holds no product at all
after `init_database`. -/
theorem init_database_deletes_products_cex :
    "0000001" ∈ (DB.mk [("0000001", ⟨emptyDetail, 0⟩)] [] [] []).leciva.map
      Prod.fst ∧
    (init_database
      (DB.mk [("0000001", ⟨emptyDetail, 0⟩)] [] [] [])).leciva.map Prod.fst
      = [] := by
  exact ⟨by decide, rfl⟩

/-- C7 amended: `save_medicine` never removes a Product row (the key set is
preserved, only possibly extended by the upserted key), leaves every other
row unchanged, and overwrites the upserted row's attributes wholesale with
the new metadata; `save_document` and `save_extracted_info` never touch the
`leciva` table at all. However `init_database` (store initialization) drops
and recreates the tables, deleting every Product row. -/
theorem product_rows_lifecycle (now : Nat) (medicine_data : MedicineDetail)
    (db : DB) (k kod_sukl : String) (document_data : DocMeta)
    (pdf_content : List Nat) (indikace davkovani : List String)
    (extracted_text : String) (hk : k ≠ medicine_data.kodSUKL) :
    ((save_medicine now medicine_data db).2.leciva.map Prod.fst =
      if medicine_data.kodSUKL ∈ db.leciva.map Prod.fst then
        db.leciva.map Prod.fst
      else db.leciva.map Prod.fst ++ [medicine_data.kodSUKL]) ∧
    ((save_medicine now medicine_data db).2.leciva.lookup k =
      db.leciva.lookup k) ∧
    (((save_medicine now medicine_data db).2.leciva.lookup
        medicine_data.kodSUKL).map LecivaRow.data = some medicine_data) ∧
    ((save_document now kod_sukl document_data pdf_content db).2.leciva =
      db.leciva) ∧
    ((save_extracted_info now kod_sukl indikace davkovani extracted_text
        db).2.leciva = db.leciva) ∧
    ((init_database db).leciva = []) := by
  refine ⟨?_, ?_, ?_, ?_, ?_, rfl⟩
  · simp [save_medicine, upsertAssoc_keys]
  · simp [save_medicine, upsertAssoc_lookup_ne _ _ _ hk]
  · simp [save_medicine, upsertAssoc_lookup_eq]
  · by_cases hm : kod_sukl ∈ db.leciva.map Prod.fst <;>
      simp [save_document, hm]
  · by_cases hm : kod_sukl ∈ db.leciva.map Prod.fst <;>
      simp [save_extracted_info, hm]

theorem product_rows_lifecycle_witness :
    ((save_medicine 7 { emptyDetail with kodSUKL := "0000002" }
        (DB.mk [("0000001", ⟨emptyDetail, 0⟩)] [] [] [])).2.leciva.map Prod.fst =
      if "0000002" ∈
          (DB.mk [("0000001", ⟨emptyDetail, 0⟩)] [] [] []).leciva.map Prod.fst then
        (DB.mk [("0000001", ⟨emptyDetail, 0⟩)] [] [] []).leciva.map Prod.fst
      else (DB.mk [("0000001", ⟨emptyDetail, 0⟩)] [] [] []).leciva.map Prod.fst
        ++ ["0000002"]) ∧
    ((save_medicine 7 { emptyDetail with kodSUKL := "0000002" }
        (DB.mk [("0000001", ⟨emptyDetail, 0⟩)] [] [] [])).2.leciva.lookup
      "0000001" =
      (DB.mk [("0000001", ⟨emptyDetail, 0⟩)] [] [] []).leciva.lookup "0000001") ∧
    (((save_medicine 7 { emptyDetail with kodSUKL := "0000002" }
        (DB.mk [("0000001", ⟨emptyDetail, 0⟩)] [] [] [])).2.leciva.lookup
      "0000002").map LecivaRow.data =
      some { emptyDetail with kodSUKL := "0000002" }) ∧
    ((save_document 7 "0000001" ⟨"0000001", "spc", "SPC.pdf"⟩ [1, 2]
        (DB.mk [("0000001", ⟨emptyDetail, 0⟩)] [] [] [])).2.leciva =
      (DB.mk [("0000001", ⟨emptyDetail, 0⟩)] [] [] []).leciva) ∧
    ((save_extracted_info 7 "0000001" ["a"] [] "t"
        (DB.mk [("0000001", ⟨emptyDetail, 0⟩)] [] [] [])).2.leciva =
      (DB.mk [("0000001", ⟨emptyDetail, 0⟩)] [] [] []).leciva) ∧
    ((init_database (DB.mk [("0000001", ⟨emptyDetail, 0⟩)] [] [] [])).leciva
      = []) :=
  product_rows_lifecycle 7 { emptyDetail with kodSUKL := "0000002" }
    (DB.mk [("0000001", ⟨emptyDetail, 0⟩)] [] [] []) "0000001" "0000001"
    ⟨"0000001", "spc", "SPC.pdf"⟩ [1, 2] ["a"] [] "t" (by decide)

/-- C3 counterexample: with three products that each have a stored `spc`
document and none of them in `extracted_info`, the `step3_pdf_extraction`
variant of the backlog query (`LIMIT 2`) misses the third code, so the claim
"it returns every code that has a stored primary document and is absent from
extracted_info" fails on that query. -/
theorem selectUnprocessed_limit2_cex :
    (("0000003", "0000003"),
      (⟨"spc", "SPC", [3], 1, 0⟩ : DokumentRow)) ∈
      (DB.mk
        [("0000001", ⟨emptyDetail, 0⟩), ("0000002", ⟨emptyDetail, 0⟩),
         ("0000003", ⟨emptyDetail, 0⟩)]
        [(("0000001", "0000001"), ⟨"spc", "SPC", [1], 1, 0⟩),
         (("0000002", "0000002"), ⟨"spc", "SPC", [2], 1, 0⟩),
         (("0000003", "0000003"), ⟨"spc", "SPC", [3], 1, 0⟩)]
        [] []).dokumenty ∧
    "0000003" ∉ extractedCodes
      (DB.mk
        [("0000001", ⟨emptyDetail, 0⟩), ("0000002", ⟨emptyDetail, 0⟩),
         ("0000003", ⟨emptyDetail, 0⟩)]
        [(("0000001", "0000001"), ⟨"spc", "SPC", [1], 1, 0⟩),
         (("0000002", "0000002"), ⟨"spc", "SPC", [2], 1, 0⟩),
         (("0000003", "0000003"), ⟨"spc", "SPC", [3], 1, 0⟩)]
        [] []) ∧
    ∀ x ∈ selectUnprocessedLimit2
      (DB.mk
        [("0000001", ⟨emptyDetail, 0⟩), ("0000002", ⟨emptyDetail, 0⟩),
         ("0000003", ⟨emptyDetail, 0⟩)]
        [(("0000001", "0000001"), ⟨"spc", "SPC", [1], 1, 0⟩),
         (("0000002", "0000002"), ⟨"spc", "SPC", [2], 1, 0⟩),
         (("0000003", "0000003"), ⟨"spc", "SPC", [3], 1, 0⟩)]
        [] []), x.1 ≠ "0000003" := by
  refine ⟨by decide, by decide, by decide⟩

/-- C3 amended: both backlog queries are sound — they never return a code
already present in `extracted_info` — and the `step3b_openai_api` query is
also complete: it returns every code that has a stored `spc` document (for a
product row) and is absent from `extracted_info`. The `step3_pdf_extraction`
variant is the same query truncated to at most 2 rows (`LIMIT 2`), so its
completeness only holds up to that truncation. -/
theorem selectUnprocessed_spec (db : DB) :
    (∀ c n p, (c, n, p) ∈ selectUnprocessed db → c ∉ extractedCodes db) ∧
    (∀ c n p, (c, n, p) ∈ selectUnprocessedLimit2 db →
      c ∉ extractedCodes db) ∧
    (∀ c lrow did drow, (c, lrow) ∈ db.leciva →
      ((c, did), drow) ∈ db.dokumenty → drow.typ = "spc" →
      c ∉ extractedCodes db →
      (c, lrow.data.nazev, drow.pdf_data) ∈ selectUnprocessed db) ∧
    List.Sublist (selectUnprocessedLimit2 db) (selectUnprocessed db) := by
  have hsound : ∀ c n p, (c, n, p) ∈ selectUnprocessed db →
      c ∉ extractedCodes db := by
    intro c n p h
    rw [selectUnprocessed, List.mem_dedup] at h
    obtain ⟨l, _, h⟩ := List.mem_flatMap.mp h
    obtain ⟨d, _, h⟩ := List.mem_filterMap.mp h
    by_cases hc : d.1.1 = l.1 ∧ d.2.typ = "spc" ∧ l.1 ∉ extractedCodes db
    · rw [if_pos hc] at h
      obtain ⟨rfl, -, -⟩ := Prod.mk.injEq .. ▸ Option.some.inj h
      exact hc.2.2
    · rw [if_neg hc] at h
      exact absurd h (by simp)
  refine ⟨hsound, fun c n p h => hsound c n p (List.mem_of_mem_take h),
    ?_, List.take_sublist 2 _⟩
  intro c lrow did drow h₁ h₂ ht hni
  rw [selectUnprocessed, List.mem_dedup]
  exact List.mem_flatMap.mpr ⟨(c, lrow), h₁,
    List.mem_filterMap.mpr ⟨((c, did), drow), h₂, by rw [if_pos ⟨rfl, ht, hni⟩]⟩⟩

theorem selectUnprocessed_spec_witness :
    ("0000001", "LekA", [1, 2]) ∈ selectUnprocessed
      (DB.mk
        [("0000001", ⟨{ emptyDetail with kodSUKL := "0000001", nazev := "LekA" }, 0⟩),
         ("0000002", ⟨{ emptyDetail with kodSUKL := "0000002" }, 0⟩)]
        [(("0000001", "0000001"), ⟨"spc", "SPC", [1, 2], 2, 0⟩)]
        [("0000002", ⟨[], [], "", 0⟩)] []) ∧
    "0000001" ∉ extractedCodes
      (DB.mk
        [("0000001", ⟨{ emptyDetail with kodSUKL := "0000001", nazev := "LekA" }, 0⟩),
         ("0000002", ⟨{ emptyDetail with kodSUKL := "0000002" }, 0⟩)]
        [(("0000001", "0000001"), ⟨"spc", "SPC", [1, 2], 2, 0⟩)]
        [("0000002", ⟨[], [], "", 0⟩)] []) := by
  have h := selectUnprocessed_spec
    (DB.mk
      [("0000001", ⟨{ emptyDetail with kodSUKL := "0000001", nazev := "LekA" }, 0⟩),
       ("0000002", ⟨{ emptyDetail with kodSUKL := "0000002" }, 0⟩)]
      [(("0000001", "0000001"), ⟨"spc", "SPC", [1, 2], 2, 0⟩)]
      [("0000002", ⟨[], [], "", 0⟩)] [])
  have hmem := h.2.2.1 "0000001"
    ⟨{ emptyDetail with kodSUKL := "0000001", nazev := "LekA" }, 0⟩ "0000001"
    ⟨"spc", "SPC", [1, 2], 2, 0⟩ (by decide) (by decide) rfl (by decide)
  exact ⟨hmem, h.1 "0000001" "LekA" [1, 2] hmem⟩

/-- Membership in an upserted store: every row either was already present or
is the freshly written row. -/
theorem mem_upsertAssoc (k : κ) (f : Option ρ → ρ) {p : κ × ρ} :
    ∀ l : List (κ × ρ), p ∈ upsertAssoc k f l →
      p ∈ l ∨ ∃ x : Option ρ, p = (k, f x)
  | [], hp => by
      right
      exact ⟨none, by simpa [upsertAssoc] using hp⟩
  | (k₁, r) :: rest, hp => by
      by_cases hk : k₁ = k
      · rw [upsertAssoc, if_pos hk] at hp
        rcases List.mem_cons.mp hp with hp | hp
        · exact Or.inr ⟨some r, hp⟩
        · exact Or.inl (List.mem_cons_of_mem _ hp)
      · rw [upsertAssoc, if_neg hk] at hp
        rcases List.mem_cons.mp hp with hp | hp
        · exact Or.inl (hp ▸ List.mem_cons_self _ _)
        · rcases mem_upsertAssoc k f rest hp with hp | hp
          · exact Or.inl (List.mem_cons_of_mem _ hp)
          · exact Or.inr hp

/-- The `pdf_size = len(pdf_data)` invariant over the `dokumenty` table. -/
def docInv (db : DB) : Prop :=
  ∀ p ∈ db.dokumenty, p.2.pdf_size = p.2.pdf_data.length

instance (db : DB) : Decidable (docInv db) :=
  inferInstanceAs (Decidable (∀ p ∈ db.dokumenty, _ = _))

/-- A sequence of `save_document` calls, applied in order. -/
def applySaveDocs : List (Nat × String × DocMeta × List Nat) → DB → DB
  | [], db => db
  | (now, kod_sukl, document_data, pdf_content) :: rest, db =>
      applySaveDocs rest
        (save_document now kod_sukl document_data pdf_content db).2

theorem save_document_docInv (now : Nat) (kod_sukl : String)
    (document_data : DocMeta) (pdf_content : List Nat) (db : DB)
    (h : docInv db) :
    docInv (save_document now kod_sukl document_data pdf_content db).2 := by
  by_cases hm : kod_sukl ∈ db.leciva.map Prod.fst
  · intro p hp
    rw [save_document, if_pos hm] at hp
    rcases mem_upsertAssoc _ _ _ hp with hp | ⟨x, rfl⟩
    · exact h p hp
    · rfl
  · rw [save_document, if_neg hm]
    exact h

/-- C10: after every sequence of `save_document` calls applied to a store
satisfying the size invariant, every `dokumenty` row still satisfies
`pdf_size = len(pdf_data)`: `save_document` always writes `len(pdf_content)`
as the size alongside the payload, and the upsert replaces both columns
together. -/
theorem document_size_invariant
    (calls : List (Nat × String × DocMeta × List Nat)) :
    ∀ db : DB, docInv db → docInv (applySaveDocs calls db) := by
  induction calls with
  | nil => exact fun db h => h
  | cons c rest ih =>
      intro db h
      exact ih _ (save_document_docInv c.1 c.2.1 c.2.2.1 c.2.2.2 db h)

theorem document_size_invariant_witness :
    docInv (DB.mk [("0000001", ⟨emptyDetail, 0⟩)] [] [] []) ∧
    docInv (applySaveDocs
      [(1, "0000001", ⟨"0000001", "spc", "SPC.pdf"⟩, [9, 9, 9]),
       (2, "0000001", ⟨"0000001", "spc", "SPC.pdf"⟩, [7])]
      (DB.mk [("0000001", ⟨emptyDetail, 0⟩)] [] [] [])) :=
  ⟨by decide,
   document_size_invariant
     [(1, "0000001", ⟨"0000001", "spc", "SPC.pdf"⟩, [9, 9, 9]),
      (2, "0000001", ⟨"0000001", "spc", "SPC.pdf"⟩, [7])]
     (DB.mk [("0000001", ⟨emptyDetail, 0⟩)] [] [] []) (by decide)⟩

theorem round3_mono {a b : ℚ} (h : a ≤ b) : round3 a ≤ round3 b := by
  have h1 : a * 1000 + 1 / 2 ≤ b * 1000 + 1 / 2 := by nlinarith
  have h2 : round (a * 1000) ≤ round (b * 1000) := by
    rw [round_eq, round_eq]
    exact Int.floor_le_floor h1
  unfold round3
  exact div_le_div_of_nonneg_right (by exact_mod_cast h2) (by norm_num)

/-- C6 counterexample: the claim says each result is scored with
`similarity = 1 - cosine distance`, but the code reports
`round(1 - distance, 3)`: at cosine distance `0.1116` the returned score is
`0.888`, which differs from `1 - 0.1116 = 0.8884`. -/
theorem search_similarity_rounded_cex :
    (search_similar_medicines (fun _ _ => 1116 / 10000)
        (DB.mk [("0000001", ⟨emptyDetail, 0⟩)] []
          [("0000001", ⟨["x"], [], "", 0⟩)]
          [("0000001", ⟨[1], [1], [1], 0⟩)])
        [0] 10).map SearchResult.similarity = [111 / 125] ∧
    (111 / 125 : ℚ) ≠ 1 - 1116 / 10000 := by
  have hval : round3 (1 - 1116 / 10000) = 111 / 125 := by
    norm_num [round3, round_eq]
  have h1 : search_similar_medicines (fun _ _ => 1116 / 10000)
      (DB.mk [("0000001", ⟨emptyDetail, 0⟩)] []
        [("0000001", ⟨["x"], [], "", 0⟩)]
        [("0000001", ⟨[1], [1], [1], 0⟩)]) [0] 10 =
      [⟨"0000001", "", ["x"], [], round3 (1 - 1116 / 10000)⟩] := rfl
  rw [h1]
  refine ⟨by simp [hval], by norm_num⟩

/-- C6 amended: for a fixed index and fixed query embedding,
`search_similar_medicines` returns at most `limit` results, sorted in
non-increasing similarity order, and each result comes from a joined index
row and is scored with `similarity = round(1 - cosine distance, 3)` — i.e.
`1 - cosine distance` rounded to 3 decimal places, not the exact value. -/
theorem search_similar_ranking (dist : List ℚ → List ℚ → ℚ) (db : DB)
    (query_vector : List ℚ) (limit : Nat) :
    (search_similar_medicines dist db query_vector limit).length ≤ limit ∧
    (search_similar_medicines dist db query_vector limit).Pairwise
      (fun a b => b.similarity ≤ a.similarity) ∧
    ∀ res ∈ search_similar_medicines dist db query_vector limit,
      ∃ row ∈ joinedRows db,
        res = ⟨row.kod_sukl, row.nazev, row.indikace, row.davkovani,
               round3 (1 - dist query_vector row.combined_vector)⟩ := by
  refine ⟨?_, ?_, ?_⟩
  · simp only [search_similar_medicines, List.length_map, List.length_take]
    exact min_le_left _ _
  · have hs := List.sorted_insertionSort (distLE dist query_vector)
      (joinedRows db)
    have ht := hs.sublist
      (List.take_sublist limit
        ((joinedRows db).insertionSort (distLE dist query_vector)))
    exact ht.map _ fun a b hab =>
      round3_mono (sub_le_sub_left hab 1)
  · intro res hres
    obtain ⟨row, hrow, heq⟩ := List.mem_map.mp hres
    exact ⟨row,
      ((List.perm_insertionSort (distLE dist query_vector)
        (joinedRows db)).subset (List.mem_of_mem_take hrow)), heq.symm⟩

theorem search_similar_ranking_witness :
    (search_similar_medicines (fun _ _ => 1 / 2)
        (DB.mk [("0000001", ⟨emptyDetail, 0⟩)] []
          [("0000001", ⟨["x"], [], "", 0⟩)]
          [("0000001", ⟨[1], [1], [1], 0⟩)]) [0] 5).length ≤ 5 ∧
    (search_similar_medicines (fun _ _ => 1 / 2)
        (DB.mk [("0000001", ⟨emptyDetail, 0⟩)] []
          [("0000001", ⟨["x"], [], "", 0⟩)]
          [("0000001", ⟨[1], [1], [1], 0⟩)]) [0] 5).Pairwise
      (fun a b => b.similarity ≤ a.similarity) ∧
    ∃ row ∈ joinedRows
        (DB.mk [("0000001", ⟨emptyDetail, 0⟩)] []
          [("0000001", ⟨["x"], [], "", 0⟩)]
          [("0000001", ⟨[1], [1], [1], 0⟩)]),
      (⟨"0000001", "", ["x"], [], round3 (1 - 1 / 2)⟩ : SearchResult) =
        ⟨row.kod_sukl, row.nazev, row.indikace, row.davkovani,
         round3 (1 - (fun _ _ => (1 : ℚ) / 2) [0] row.combined_vector)⟩ := by
  have h := search_similar_ranking (fun _ _ => 1 / 2)
    (DB.mk [("0000001", ⟨emptyDetail, 0⟩)] []
      [("0000001", ⟨["x"], [], "", 0⟩)]
      [("0000001", ⟨[1], [1], [1], 0⟩)]) [0] 5
  have hred : search_similar_medicines (fun _ _ => 1 / 2)
      (DB.mk [("0000001", ⟨emptyDetail, 0⟩)] []
        [("0000001", ⟨["x"], [], "", 0⟩)]
        [("0000001", ⟨[1], [1], [1], 0⟩)]) [0] 5 =
      [⟨"0000001", "", ["x"], [], round3 (1 - 1 / 2)⟩] := rfl
  exact ⟨h.1, h.2.1,
    h.2.2 ⟨"0000001", "", ["x"], [], round3 (1 - 1 / 2)⟩
      (hred ▸ List.mem_singleton.mpr rfl)⟩

/-- C9 counterexample: the claim says that on `EmbeddingError` no vector row
is written, but `create_embeddings` substitutes `np.zeros(384)` and
`update_vectors_for_medicine` writes the row: starting from an empty
`medicine_vectors` table, a product whose three embedding calls all throw
still gets a vector row, and the call reports success. -/
theorem embedding_failure_writes_row_cex :
    (update_vectors_for_medicine ⟨.error (), .error (), .error ()⟩ 0
      "0000001" ["x"] []
      (DB.mk [("0000001", ⟨emptyDetail, 0⟩)] [] [] [])).1 = true ∧
    (DB.mk [("0000001", ⟨emptyDetail, 0⟩)] [] [] []).medicine_vectors = [] ∧
    ((update_vectors_for_medicine ⟨.error (), .error (), .error ()⟩ 0
      "0000001" ["x"] []
      (DB.mk [("0000001", ⟨emptyDetail, 0⟩)] [] [] [])).2.medicine_vectors).map
        Prod.fst = ["0000001"] := by
  refine ⟨by decide, rfl, by decide⟩

/-- C9 amended: when the embedding calls fail, `create_embeddings` falls back
to the 384-dimensional zero vector and `update_vectors_for_medicine` still
writes the product's vector row (filled with zero vectors) and reports
success; rows of other products are unchanged, and the batch run continues
with the next product. -/
theorem embedding_failure_zero_fallback (env : EmbedEnv) (now : Nat)
    (kod_sukl : String) (indikace davkovani : List String) (db : DB)
    (h₁ : env.indikaceResp = .error ()) (h₂ : env.davkovaniResp = .error ())
    (h₃ : env.combinedResp = .error ())
    (hne : pyStrip (joinSpace indikace ++ " " ++ joinSpace davkovani) ≠ "")
    (hfk : kod_sukl ∈ db.leciva.map Prod.fst) :
    (update_vectors_for_medicine env now kod_sukl indikace davkovani db).1
      = true ∧
    ((update_vectors_for_medicine env now kod_sukl indikace davkovani
        db).2.medicine_vectors).lookup kod_sukl =
      some ⟨List.replicate 384 0, List.replicate 384 0, List.replicate 384 0,
        match db.medicine_vectors.lookup kod_sukl with
        | some o => o.created_at
        | none => now⟩ ∧
    (∀ k, k ≠ kod_sukl →
      ((update_vectors_for_medicine env now kod_sukl indikace davkovani
          db).2.medicine_vectors).lookup k = db.medicine_vectors.lookup k) ∧
    (∀ rest nowStart,
      batch_update_vectors ((kod_sukl, indikace, davkovani, env) :: rest)
          nowStart db =
        ((batch_update_vectors rest (nowStart + 1)
            (update_vectors_for_medicine env nowStart kod_sukl indikace
              davkovani db).2).1 + 1,
         (batch_update_vectors rest (nowStart + 1)
            (update_vectors_for_medicine env nowStart kod_sukl indikace
              davkovani db).2).2)) := by
  have hTrue : ∀ n, (update_vectors_for_medicine env n kod_sukl indikace
      davkovani db).1 = true := fun n => by
    simp [update_vectors_for_medicine, hne, hfk]
  have hupd : ∀ n, (update_vectors_for_medicine env n kod_sukl indikace
      davkovani db).2 =
      { db with
          medicine_vectors := upsertAssoc kod_sukl
            (fun old =>
              ⟨create_embeddings env.indikaceResp,
               create_embeddings env.davkovaniResp,
               create_embeddings env.combinedResp,
               match old with
               | some o => o.created_at
               | none => n⟩)
            db.medicine_vectors } := fun n => by
    simp [update_vectors_for_medicine, hne, hfk]
  refine ⟨hTrue now, ?_, ?_, ?_⟩
  · rw [hupd now]
    show (upsertAssoc kod_sukl _ db.medicine_vectors).lookup kod_sukl = _
    rw [upsertAssoc_lookup_eq, h₁, h₂, h₃]
    rfl
  · intro k hk
    rw [hupd now]
    exact upsertAssoc_lookup_ne _ _ _ hk _
  · intro rest nowStart
    simp [batch_update_vectors, hTrue nowStart]

theorem embedding_failure_zero_fallback_witness :
    (update_vectors_for_medicine ⟨.error (), .error (), .error ()⟩ 3
      "0000001" ["x"] []
      (DB.mk [("0000001", ⟨emptyDetail, 0⟩)] [] [] [])).1 = true ∧
    ((update_vectors_for_medicine ⟨.error (), .error (), .error ()⟩ 3
      "0000001" ["x"] []
      (DB.mk [("0000001", ⟨emptyDetail, 0⟩)] [] [] [])).2.medicine_vectors).lookup
        "0000001" =
      some ⟨List.replicate 384 0, List.replicate 384 0, List.replicate 384 0,
        match (DB.mk [("0000001", ⟨emptyDetail, 0⟩)] []
          [] []).medicine_vectors.lookup "0000001" with
        | some o => o.created_at
        | none => 3⟩ ∧
    ((update_vectors_for_medicine ⟨.error (), .error (), .error ()⟩ 3
      "0000001" ["x"] []
      (DB.mk [("0000001", ⟨emptyDetail, 0⟩)] [] [] [])).2.medicine_vectors).lookup
        "0000002" =
      (DB.mk [("0000001", ⟨emptyDetail, 0⟩)] [] [] []).medicine_vectors.lookup
        "0000002" ∧
    batch_update_vectors
        [("0000001", ["x"], [], ⟨.error (), .error (), .error ()⟩)] 5
        (DB.mk [("0000001", ⟨emptyDetail, 0⟩)] [] [] []) =
      ((batch_update_vectors [] (5 + 1)
          (update_vectors_for_medicine ⟨.error (), .error (), .error ()⟩ 5
            "0000001" ["x"] []
            (DB.mk [("0000001", ⟨emptyDetail, 0⟩)] [] [] [])).2).1 + 1,
       (batch_update_vectors [] (5 + 1)
          (update_vectors_for_medicine ⟨.error (), .error (), .error ()⟩ 5
            "0000001" ["x"] []
            (DB.mk [("0000001", ⟨emptyDetail, 0⟩)] [] [] [])).2).2) := by
  have h := embedding_failure_zero_fallback
    ⟨.error (), .error (), .error ()⟩ 3 "0000001" ["x"] []
    (DB.mk [("0000001", ⟨emptyDetail, 0⟩)] [] [] [])
    rfl rfl rfl (by decide) (by decide)
  exact ⟨h.1, h.2.1, h.2.2.1 "0000002" (by decide), h.2.2.2 [] 5⟩

end Sukl
